import Mathlib

/-!
Verification development for the PIN-AI OpenClaw connector.

Shallow embedding of the connector's core logic, translated from the
TypeScript sources:

* `src/chat/chat-store.ts` — chat credentials store and processed-ID ledger
* message poller (`MessagePoller.processConversation`)
* `src/error-handler.ts` — error classification, retry/backoff, circuit breaker
* desktop connector manager — pairing poll, token expiry, disconnect
* registration store (persist/load/clear of `ConnectorRegistration`)

Conventions: filesystem-backed JSON documents are modelled as `Option`
values (the current file content, `none` = absent); timers and the
filesystem watcher are modelled as explicit state fields; wall-clock
times and `Math.random` draws are passed as explicit parameters.
-/

namespace PinaiConnector

/-! ### Chat credentials store (`src/src/chat/chat-store.ts`)

`AgentHubCredentials` keeps only the fields the chat store logic reads or
writes; `processedMessageIds` is optional in TypeScript and is modelled as a
plain list, with the missing field represented by `[]` (the source replaces a
missing field by `[]` before use). -/

structure AgentHubCredentials where
  apiKey : String
  agentId : String
  agentName : String
  enabled : Bool
  lastHeartbeat : Option Nat
  processedMessageIds : List String
  deriving Repr, DecidableEq

/-- The credentials document on disk: `none` when the file is absent or
unreadable (`loadAgentHubCredentials` returns `null`). -/
abbrev CredStore := Option AgentHubCredentials

/-- `addProcessedMessageId` from `chat-store.ts`: load the credentials
(no-op when absent), push the id, and when the list exceeds 1000 entries
keep only the last 1000 (`slice(-1000)`), then save. -/
def addProcessedMessageId (store : CredStore) (messageId : String) : CredStore :=
  match store with
  | none => none
  | some c =>
    let ids := c.processedMessageIds ++ [messageId]
    let ids := if ids.length > 1000 then ids.drop (ids.length - 1000) else ids
    some { c with processedMessageIds := ids }

/-- `isMessageProcessed` from `chat-store.ts`: `false` when no credentials
(or no ledger) exist, otherwise list membership. -/
def isMessageProcessed (store : CredStore) (messageId : String) : Bool :=
  match store with
  | none => false
  | some c => c.processedMessageIds.contains messageId

/-! ### Message poller (`MessagePoller.processConversation`) -/

/-- A chat message as returned by `AgentHubClient.getMessages`. `created_at`
is the message timestamp in Unix milliseconds (the source converts the wire
string with `new Date(...).getTime()`; we carry the resulting number). -/
structure ChatMessage where
  id : String
  «from» : String
  content : String
  created_at : Nat
  deriving Repr, DecidableEq

/-- The `NewMessageEvent` emitted for each accepted message. -/
structure NewMessageEvent where
  messageId : String
  peerId : String
  peerName : String
  content : String
  timestamp : Nat
  deriving Repr, DecidableEq

/-- The event built from an accepted message in `processConversation`. -/
def mkNewMessageEvent (peerId peerName : String) (m : ChatMessage) : NewMessageEvent :=
  { messageId := m.id
    peerId := peerId
    peerName := peerName
    content := m.content
    timestamp := m.created_at }

/-- The filter step of `processConversation`: keep messages that are not in
the processed-ID ledger and whose `from` field equals the polled peer.  The
whole batch is filtered against the ledger state *before* any event is
emitted or any id committed (in the source, `Array.filter` completes before
the emission loop runs). -/
def selectedMessages (store : CredStore) (peerId : String)
    (msgs : List ChatMessage) : List ChatMessage :=
  msgs.filter (fun m => !(isMessageProcessed store m.id) && m.from == peerId)

/-- `processConversation` (dedup stage): filter the fetched batch, then for
each selected message emit a `new-message` event and commit its id into the
ledger.  Returns the emitted events (in order) and the updated credentials
document. -/
def processConversation (store : CredStore) (peerId peerName : String)
    (msgs : List ChatMessage) : List NewMessageEvent × CredStore :=
  let sel := selectedMessages store peerId msgs
  (sel.map (mkNewMessageEvent peerId peerName),
   sel.foldl (fun s m => addProcessedMessageId s m.id) store)

/-! ### Error handler (`src/src/error-handler.ts`)

Error classification, rolling statistics, the circuit-breaker signal, and
`withRetry` with exponential backoff.  Event emissions are modelled as
counters on the governor state; `Date.now()` and `Math.random()` are passed
in as explicit parameters. -/

inductive ErrorCategory where
  | network | authentication | validation | timeout | server | client | unknown
  deriving Repr, DecidableEq

inductive ErrorSeverity where
  | low | medium | high | critical
  deriving Repr, DecidableEq

/-- One entry of the `ERROR_CODES` table. -/
structure ErrorCode where
  code : String
  category : ErrorCategory
  severity : ErrorSeverity
  deriving Repr, DecidableEq

def NETWORK_OFFLINE : ErrorCode := ⟨"E001", .network, .high⟩
def NETWORK_TIMEOUT : ErrorCode := ⟨"E002", .timeout, .medium⟩
def NETWORK_DNS : ErrorCode := ⟨"E003", .network, .high⟩
def SERVER_UNAVAILABLE : ErrorCode := ⟨"E101", .server, .high⟩
def SERVER_INTERNAL : ErrorCode := ⟨"E102", .server, .medium⟩
def SERVER_RATE_LIMIT : ErrorCode := ⟨"E103", .server, .low⟩
def AUTH_INVALID_TOKEN : ErrorCode := ⟨"E201", .authentication, .critical⟩
def AUTH_EXPIRED : ErrorCode := ⟨"E202", .authentication, .high⟩
def AUTH_UNAUTHORIZED : ErrorCode := ⟨"E203", .authentication, .critical⟩
def VALIDATION_FAILED : ErrorCode := ⟨"E301", .validation, .low⟩
def INVALID_RESPONSE : ErrorCode := ⟨"E302", .validation, .medium⟩
def UNKNOWN_ERROR : ErrorCode := ⟨"E999", .unknown, .medium⟩

/-- Substring search on character lists: `true` iff `pat` occurs
contiguously in `s`. -/
def containsSub : List Char → List Char → Bool
  | s, pat =>
    match s with
    | [] => pat.isEmpty
    | _ :: tail => pat.isPrefixOf s || containsSub tail pat

/-- `message.includes(pat)`: substring containment on the character list. -/
def strIncludes (s pat : String) : Bool :=
  containsSub s.data pat.data

/-- `message.toLowerCase()`: lower-case every character (the computable
character-list form of `String.toLower`). -/
def strToLower (s : String) : String :=
  ⟨s.data.map Char.toLower⟩

/-- `classifyError` from `error-handler.ts`: a chain of substring tests on
the lower-cased error message (the source also lower-cases `error.name` but
never consults it). -/
def classifyError (message : String) : ErrorCode :=
  let m := strToLower message
  if strIncludes m "enotfound" || strIncludes m "dns" then NETWORK_DNS
  else if strIncludes m "econnrefused" || strIncludes m "network" then NETWORK_OFFLINE
  else if strIncludes m "timeout" || strIncludes m "etimedout" then NETWORK_TIMEOUT
  else if strIncludes m "503" || strIncludes m "service unavailable" then SERVER_UNAVAILABLE
  else if strIncludes m "500" || strIncludes m "internal server" then SERVER_INTERNAL
  else if strIncludes m "429" || strIncludes m "rate limit" then SERVER_RATE_LIMIT
  else if strIncludes m "401" || strIncludes m "unauthorized" then AUTH_UNAUTHORIZED
  else if strIncludes m "403" || strIncludes m "forbidden" then AUTH_INVALID_TOKEN
  else if strIncludes m "token" && strIncludes m "expired" then AUTH_EXPIRED
  else if strIncludes m "400" || strIncludes m "bad request" then VALIDATION_FAILED
  else if strIncludes m "invalid" && strIncludes m "response" then INVALID_RESPONSE
  else UNKNOWN_ERROR

/-- `isRetryable`: critical and authentication errors are never retryable;
network, server and timeout errors are; everything else is not. -/
def isRetryable (category : ErrorCategory) (severity : ErrorSeverity) : Bool :=
  if severity == .critical || category == .authentication then false
  else if category == .network || category == .server || category == .timeout then true
  else false

/-- A `ConnectorError` produced by `createError` (the `context` and
`originalError` fields carry no logic and are omitted; `message` keeps the
original message text). -/
structure ConnectorError where
  code : String
  message : String
  category : ErrorCategory
  severity : ErrorSeverity
  timestamp : Nat
  retryable : Bool
  deriving Repr, DecidableEq

/-- The pure part of `createError`: classify the message and fill in the
`ConnectorError` record (`now` stands for `Date.now()`). -/
def mkConnectorError (message : String) (now : Nat) : ConnectorError :=
  let classification := classifyError message
  { code := classification.code
    message := message
    category := classification.category
    severity := classification.severity
    timestamp := now
    retryable := isRetryable classification.category classification.severity }

/-- Rolling `ErrorStats` counters. -/
structure ErrorStats where
  totalErrors : Nat
  errorsByCategory : ErrorCategory → Nat
  errorsBySeverity : ErrorSeverity → Nat
  lastError : Option ConnectorError
  consecutiveFailures : Nat
  lastSuccessTime : Option Nat

/-- `createInitialStats`. -/
def createInitialStats : ErrorStats :=
  { totalErrors := 0
    errorsByCategory := fun _ => 0
    errorsBySeverity := fun _ => 0
    lastError := none
    consecutiveFailures := 0
    lastSuccessTime := none }

/-- `ErrorHandler` instance state relevant to statistics and signals; the
`emit(...)` calls are modelled as counters. -/
structure GovernorState where
  stats : ErrorStats
  errorRecordedEmits : Nat
  circuitBreakerEmits : Nat
  successRecordedEmits : Nat

def initialGovernorState : GovernorState :=
  { stats := createInitialStats
    errorRecordedEmits := 0
    circuitBreakerEmits := 0
    successRecordedEmits := 0 }

/-- `recordError`: bump all counters, emit `error-recorded`, and emit
`circuit-breaker-triggered` whenever the (just incremented) consecutive
failure count is at least 10. -/
def recordError (g : GovernorState) (e : ConnectorError) : GovernorState :=
  let stats :=
    { g.stats with
      totalErrors := g.stats.totalErrors + 1
      errorsByCategory := fun c =>
        if c = e.category then g.stats.errorsByCategory c + 1
        else g.stats.errorsByCategory c
      errorsBySeverity := fun s =>
        if s = e.severity then g.stats.errorsBySeverity s + 1
        else g.stats.errorsBySeverity s
      lastError := some e
      consecutiveFailures := g.stats.consecutiveFailures + 1 }
  let g := { g with stats := stats, errorRecordedEmits := g.errorRecordedEmits + 1 }
  if stats.consecutiveFailures ≥ 10 then
    { g with circuitBreakerEmits := g.circuitBreakerEmits + 1 }
  else g

/-- `recordSuccess`: reset the consecutive-failure count and stamp the
success time. -/
def recordSuccess (g : GovernorState) (now : Nat) : GovernorState :=
  { g with
    stats := { g.stats with consecutiveFailures := 0, lastSuccessTime := some now }
    successRecordedEmits := g.successRecordedEmits + 1 }

/-- `createError`: build the classified error and record it in the stats. -/
def createError (g : GovernorState) (message : String) (now : Nat) :
    ConnectorError × GovernorState :=
  let e := mkConnectorError message now
  (e, recordError g e)

/-- The `RecoveryStrategy` record; delays are exact rationals so that the
floating-point backoff arithmetic is represented without rounding. -/
structure RecoveryStrategy where
  maxRetries : Nat
  baseDelayMs : ℚ
  maxDelayMs : ℚ
  backoffMultiplier : ℚ
  jitterFactor : ℚ

/-- `DEFAULT_RECOVERY_STRATEGY`. -/
def defaultRecoveryStrategy : RecoveryStrategy :=
  { maxRetries := 5
    baseDelayMs := 1000
    maxDelayMs := 60000
    backoffMultiplier := 2
    jitterFactor := 3 / 10 }

/-- `calculateRetryDelay`: exponential backoff capped at `maxDelayMs`, then
jittered by `delay * jitterFactor * (2·rand − 1)` where `rand` models the
`Math.random()` draw, floored at 0 and rounded to the nearest integer
(`Math.round` and Mathlib's `round` both map `x` to `⌊x + 1/2⌋`). -/
def calculateRetryDelay (s : RecoveryStrategy) (attempt : Nat) (rand : ℚ) : ℤ :=
  let delay := s.baseDelayMs * s.backoffMultiplier ^ attempt
  let delay := min delay s.maxDelayMs
  let jitter := delay * s.jitterFactor * (rand * 2 - 1)
  round (max 0 (delay + jitter))

/-- Result of a `withRetry` run: the returned value or the thrown error
(`.error none` models the `throw lastError` after a loop that never ran,
where `lastError` is still `null`), the number of times `fn` was invoked,
the backoff delays slept between attempts (in order), and the final
governor state. -/
structure RetryOutcome (α : Type) where
  result : Except (Option ConnectorError) α
  invocations : Nat
  delays : List ℤ
  governor : GovernorState

/-- The `for` loop of `withRetry`.  `fn i` is the outcome of the `i`-th
invocation of the wrapped function (`.error msg` = the promise rejected
with an error whose message is `msg`); `rand i` and `now i` are the
`Math.random()` / `Date.now()` values observed at attempt `i`.  `fuel` is
the number of loop iterations remaining (`maxRetries − attempt`). -/
def withRetryAux {α : Type} (s : RecoveryStrategy) (fn : Nat → Except String α)
    (rand : Nat → ℚ) (now : Nat → Nat) :
    Nat → Nat → GovernorState → List ℤ → Option ConnectorError → RetryOutcome α
  | attempt, 0, g, ds, lastErr =>
    { result := .error lastErr, invocations := attempt, delays := ds, governor := g }
  | attempt, fuel + 1, g, ds, _ =>
    match fn attempt with
    | .ok v =>
      { result := .ok v
        invocations := attempt + 1
        delays := ds
        governor := recordSuccess g (now attempt) }
    | .error msg =>
      let (ce, g) := createError g msg (now attempt)
      if !ce.retryable || attempt ≥ s.maxRetries - 1 then
        { result := .error (some ce), invocations := attempt + 1, delays := ds, governor := g }
      else
        let d := calculateRetryDelay s attempt (rand attempt)
        withRetryAux s fn rand now (attempt + 1) fuel g (ds ++ [d]) (some ce)

/-- `withRetry` with the effective strategy `s` (the source merges the
custom strategy over the instance strategy before the loop). -/
def withRetry {α : Type} (s : RecoveryStrategy) (fn : Nat → Except String α)
    (rand : Nat → ℚ) (now : Nat → Nat) (g : GovernorState) : RetryOutcome α :=
  withRetryAux s fn rand now 0 s.maxRetries g [] none

/-! ### Registration store (`core-bridge.ts`, registration-store section)

The persisted registration document.  `saveRegistration` writes
`JSON.stringify(registration)` to the file; `loadRegistration` reads and
`JSON.parse`s it and rejects documents whose `connectorId`, `token` or
`deviceName` is missing or falsy (the empty string).  The file content is
modelled as a JSON tree (`Option Json`, `none` = file absent); the textual
serialisation layer (`fs` + the JSON library) is external to the repository
and is lossless for these documents. -/

inductive Json where
  | str : String → Json
  | num : Int → Json
  | jbool : Bool → Json
  | null : Json
  | obj : List (String × Json) → Json

/-- Field lookup on a JSON object (`undefined` = `none` otherwise). -/
def Json.lookup : Json → String → Option Json
  | .obj fields, k => fields.lookup k
  | _, _ => none

/-- `ConnectorRegistration` (`types.ts`): optional fields are `Option`s. -/
structure ConnectorRegistration where
  connectorId : String
  deviceName : String
  deviceType : String
  token : String
  userId : Option String
  status : String
  registeredAt : Option Int
  lastWorkContextReportTime : Option Int
  deriving Repr, DecidableEq

/-- `JSON.stringify(registration)`: present fields in interface order;
`undefined` (i.e. `none`) fields are omitted from the output. -/
def encodeRegistration (r : ConnectorRegistration) : Json :=
  .obj
    ([("connectorId", .str r.connectorId),
      ("deviceName", .str r.deviceName),
      ("deviceType", .str r.deviceType),
      ("token", .str r.token)]
     ++ (match r.userId with | some u => [("userId", Json.str u)] | none => [])
     ++ [("status", .str r.status)]
     ++ (match r.registeredAt with | some t => [("registeredAt", Json.num t)] | none => [])
     ++ (match r.lastWorkContextReportTime with
         | some t => [("lastWorkContextReportTime", Json.num t)]
         | none => []))

/-- Reading the parsed JSON back as a `ConnectorRegistration` (the source
casts without validating shapes; here a field of the wrong JSON shape makes
the decode fail, which never happens for documents written by
`saveRegistration`). -/
def decodeRegistration (j : Json) : Option ConnectorRegistration := do
  let .str connectorId ← j.lookup "connectorId" | none
  let .str deviceName ← j.lookup "deviceName" | none
  let .str deviceType ← j.lookup "deviceType" | none
  let .str token ← j.lookup "token" | none
  let .str status ← j.lookup "status" | none
  let userId ← match j.lookup "userId" with
    | some (.str u) => some (some u)
    | none => some none
    | _ => none
  let registeredAt ← match j.lookup "registeredAt" with
    | some (.num t) => some (some t)
    | none => some none
    | _ => none
  let lastWorkContextReportTime ← match j.lookup "lastWorkContextReportTime" with
    | some (.num t) => some (some t)
    | none => some none
    | _ => none
  some { connectorId, deviceName, deviceType, token, userId, status,
         registeredAt, lastWorkContextReportTime }

/-- `saveRegistration`: overwrite the registration file with the JSON
serialisation of the registration. -/
def saveRegistration (_file : Option Json) (r : ConnectorRegistration) : Option Json :=
  some (encodeRegistration r)

/-- `loadRegistration`: `null` when the file is absent or unparsable, or
when any of the three required fields is missing or the empty string. -/
def loadRegistration (file : Option Json) : Option ConnectorRegistration :=
  match file with
  | none => none
  | some j =>
    match decodeRegistration j with
    | none => none
    | some r =>
      if r.connectorId = "" || r.token = "" || r.deviceName = "" then none
      else some r

/-- `clearRegistration`: delete the registration file. -/
def clearRegistration (_file : Option Json) : Option Json := none

/-! ### Desktop connector manager (pairing poll, token expiry, disconnect)

State of a `DesktopConnectorManager` instance plus the registration file it
persists to.  Timers are booleans (armed or not), the filesystem watcher is
identified by a generation number so that "the watcher active at some point
was closed" is expressible, and `emit(...)` calls append to an event
trace. -/

structure QRCodeLoginToken where
  token : String
  createdAt : Nat
  expiresAt : Nat
  deriving Repr, DecidableEq

/-- Events emitted by the manager (only those the claims mention). -/
inductive ManagerEvent where
  | tokenExpired (t : Option QRCodeLoginToken)
  | registered (r : ConnectorRegistration)
  | disconnected
  deriving Repr, DecidableEq

structure ManagerState where
  currentToken : Option QRCodeLoginToken
  registration : Option ConnectorRegistration
  registrationFile : Option Json
  status : String
  heartbeatTimer : Bool
  commandPollTimer : Bool
  reconnectTimer : Bool
  wsOpen : Bool
  pollActive : Bool
  attempts : Nat
  watcher : Option Nat
  nextWatcherId : Nat
  closedWatchers : List Nat
  events : List ManagerEvent

/-- `GET /check-login-status` response fields the poll tick consults. -/
structure StatusResponse where
  registered : Bool
  expired : Bool
  connector_id : String
  device_name : String
  deriving Repr, DecidableEq

/-- One tick of the `startRegistrationPolling` interval callback.
`input = none` models a failed status check (fetch rejection or a non-OK
response, both of which land in the `catch` and bump `attempts`);
`input = some data` is a successful check.  The tick first tests
`attempts >= maxAttempts` (60), then `data.registered`, then
`data.expired`, in source order. -/
def registrationPollTick (st : ManagerState) (pollToken : String)
    (input : Option StatusResponse) (now : Nat) : ManagerState :=
  if !st.pollActive then st
  else if st.attempts ≥ 60 then
    { st with pollActive := false
              events := st.events ++ [.tokenExpired st.currentToken]
              currentToken := none }
  else
    match input with
    | none => { st with attempts := st.attempts + 1 }
    | some data =>
      if data.registered then
        let reg : ConnectorRegistration :=
          { connectorId := data.connector_id
            deviceName := data.device_name
            deviceType := "desktop"
            token := pollToken
            userId := some ""
            status := "connected"
            registeredAt := some now
            lastWorkContextReportTime := none }
        { st with pollActive := false
                  registration := some reg
                  registrationFile := saveRegistration st.registrationFile reg
                  status := "connected"
                  currentToken := none
                  heartbeatTimer := true
                  commandPollTimer := true
                  events := st.events ++ [.registered reg] }
      else if data.expired then
        { st with pollActive := false
                  events := st.events ++ [.tokenExpired st.currentToken]
                  currentToken := none }
      else { st with attempts := st.attempts + 1 }

/-- The token-expiration `setTimeout` callback armed by `generateQRCode`:
if a token is still outstanding and no registration has been obtained, emit
`token-expired` and clear the token; otherwise do nothing. -/
def tokenExpirationTimerFire (st : ManagerState) : ManagerState :=
  if st.currentToken.isSome && st.registration.isNone then
    { st with events := st.events ++ [.tokenExpired st.currentToken]
              currentToken := none }
  else st

/-- Options of `disconnect` (`undefined` = `none`). -/
structure DisconnectOptions where
  clearRegistration : Option Bool := none
  watchForRegistration : Option Bool := none
  deleteRemote : Option Bool := none
  deriving Repr, DecidableEq

/-- `disconnect`: stop the watcher, clear all timers, close the websocket,
best-effort notify the backend (`remoteOk` = whether that call returned OK;
`false` also covers a thrown fetch), clear the persisted registration only
when clearing is requested and remote success is not required or was
obtained, drop the in-memory registration, emit `disconnected`, and
optionally re-arm the registration watcher. -/
def disconnect (st : ManagerState) (opts : DisconnectOptions) (remoteOk : Bool) :
    ManagerState :=
  let st := match st.watcher with
    | some w => { st with watcher := none, closedWatchers := st.closedWatchers ++ [w] }
    | none => st
  let st := { st with heartbeatTimer := false, commandPollTimer := false,
                      reconnectTimer := false, wsOpen := false }
  let st :=
    match st.registration with
    | some _ =>
      let shouldClear := opts.clearRegistration != some false
      let needsRemoteSuccess := opts.deleteRemote == some true
      if shouldClear && (!needsRemoteSuccess || remoteOk) then
        { st with registrationFile := clearRegistration st.registrationFile }
      else st
    | none => st
  let st := { st with registration := none, status := "disconnected",
                      events := st.events ++ [.disconnected] }
  let shouldWatch := match opts.watchForRegistration with
    | some b => b
    | none => opts.clearRegistration != some false
  if shouldWatch then
    if st.watcher.isNone && st.registration.isNone then
      { st with watcher := some st.nextWatcherId, nextWatcherId := st.nextWatcherId + 1 }
    else st
  else st

/-! ### The C4 pairing-timeout scenario

`generateQRCode` succeeds at time `T` with `expires_in = 300`; the
expiration timer is armed for `min(qrCodeTimeoutMs, 300·1000)` ms (with the
default `qrCodeTimeoutMs = 300000` that is `T+300s`) and the registration
poll runs every 5 s.  With no successful status check, ticks 1–60 (at
`T+5s … T+300s`) each bump `attempts`; the expiration timer fires at
`T+300s`; the 61st tick (at `T+305s`) then finds `attempts ≥ 60`. -/

/-- Manager state right after `generateQRCode` stored the fresh token and
started the registration poll. -/
def freshPairingState (tok : QRCodeLoginToken) : ManagerState :=
  { currentToken := some tok
    registration := none
    registrationFile := none
    status := "disconnected"
    heartbeatTimer := false
    commandPollTimer := false
    reconnectTimer := false
    wsOpen := false
    pollActive := true
    attempts := 0
    watcher := none
    nextWatcherId := 0
    closedWatchers := []
    events := [] }

/-- A poll tick with no successful status check (fetch failed or the
response was not OK). -/
def failedTick (tokString : String) (st : ManagerState) : ManagerState :=
  registrationPollTick st tokString none 0

/-- The full C4 scenario trace: 60 failed ticks, the expiration-timer
callback, then the 61st tick. -/
def pairingTimeoutRun (tok : QRCodeLoginToken) : ManagerState :=
  let st1 := (failedTick tok.token)^[60] (freshPairingState tok)
  let st2 := tokenExpirationTimerFire st1
  registrationPollTick st2 tok.token none 0

/-- Number of `token-expired` emissions in a trace. -/
def countTokenExpired (evs : List ManagerEvent) : Nat :=
  evs.countP (fun e => match e with | .tokenExpired _ => true | _ => false)

/-! ### Concrete fixtures used by counterexamples and witnesses -/

/-- A credentials document with an empty ledger. -/
def emptyCreds : AgentHubCredentials :=
  { apiKey := "k", agentId := "agent-1", agentName := "Agent", enabled := true
    lastHeartbeat := none, processedMessageIds := [] }

/-- A credentials document whose ledger is full (1000 entries). -/
def fullCreds : AgentHubCredentials :=
  { emptyCreds with processedMessageIds := List.replicate 1000 "x" }

/-- A chat message from peer `"p"`. -/
def msgA : ChatMessage := { id := "a", «from» := "p", content := "hi", created_at := 7 }

/-- A chat message whose `from` field is not the polled peer. -/
def msgOther : ChatMessage := { id := "b", «from» := "q", content := "mine", created_at := 9 }

/-- A registration with non-empty required fields. -/
def sampleRegistration : ConnectorRegistration :=
  { connectorId := "c-1", deviceName := "dev", deviceType := "desktop", token := "t-1"
    userId := some "", status := "connected", registeredAt := some 5
    lastWorkContextReportTime := none }

/-- A pairing token (created at 0, `expires_in = 300`). -/
def sampleToken : QRCodeLoginToken := { token := "tok", createdAt := 0, expiresAt := 300000 }

/-- A pairing-status response with both `registered` and `expired` set. -/
def ambiguousResponse : StatusResponse :=
  { registered := true, expired := true, connector_id := "c-1", device_name := "dev" }

/-- The poll tick applied to a fresh pairing state with the ambiguous
response. -/
def ambiguousTickResult : ManagerState :=
  registrationPollTick (freshPairingState sampleToken) "tok" (some ambiguousResponse) 0

/-- A classified error (the `ERROR_CODES.NETWORK_OFFLINE` shape). -/
def sampleNetworkError : ConnectorError :=
  { code := "E001", message := "econnrefused", category := .network, severity := .high
    timestamp := 0, retryable := true }

/-- Governor state after `n` consecutive `recordError` calls starting from
a fresh handler. -/
def afterFailures (e : ConnectorError) : Nat → GovernorState
  | 0 => initialGovernorState
  | n + 1 => recordError (afterFailures e n) e

/-- A connected manager state with all timers and a watcher armed, holding
`sampleRegistration` both in memory and on disk. -/
def connectedState : ManagerState :=
  { currentToken := none
    registration := some sampleRegistration
    registrationFile := saveRegistration none sampleRegistration
    status := "connected"
    heartbeatTimer := true
    commandPollTimer := true
    reconnectTimer := true
    wsOpen := true
    pollActive := false
    attempts := 0
    watcher := some 3
    nextWatcherId := 4
    closedWatchers := []
    events := [] }

/-! ## Theorems -/

/-- Helper: a completed insertion leaves at most 1000 ids in the ledger. -/
lemma addProcessedMessageId_length_le (store : CredStore) (messageId : String)
    (c' : AgentHubCredentials) (h : addProcessedMessageId store messageId = some c') :
    c'.processedMessageIds.length ≤ 1000 := by
  cases store with
  | none => simp [addProcessedMessageId] at h
  | some c =>
    simp only [addProcessedMessageId] at h
    split at h
    · next hgt =>
      obtain rfl := Option.some.inj h
      simp only [List.length_drop]
      omega
    · next hle =>
      obtain rfl := Option.some.inj h
      simp only [List.length_append, List.length_cons, List.length_nil] at hle ⊢
      omega

/-- C2: after any completed insertion — from any credentials state — the
stored `processedMessageIds` list has at most 1000 entries (first
conjunct, stated for the last insertion of an arbitrary call sequence),
and an insertion into a 1000-entry ledger evicts exactly the oldest
entry, keeping the most recent 1000 in order (second conjunct). -/
theorem addProcessedMessageId_bounded_fifo (store : CredStore) (ids : List String)
    (messageId : String) :
    (∀ c', (ids ++ [messageId]).foldl addProcessedMessageId store = some c' →
        c'.processedMessageIds.length ≤ 1000) ∧
    (∀ c, c.processedMessageIds.length = 1000 →
        addProcessedMessageId (some c) messageId =
          some { c with
                 processedMessageIds := c.processedMessageIds.drop 1 ++ [messageId] }) := by
  constructor
  · intro c' h
    rw [List.foldl_append, List.foldl_cons, List.foldl_nil] at h
    exact addProcessedMessageId_length_le _ _ _ h
  · intro c hc
    have hgt : (c.processedMessageIds ++ [messageId]).length > 1000 := by
      simp only [List.length_append, List.length_cons, List.length_nil, hc]
      omega
    have h1 : (c.processedMessageIds ++ [messageId]).length - 1000 = 1 := by
      simp only [List.length_append, List.length_cons, List.length_nil, hc]
    have h2 : 1 - c.processedMessageIds.length = 0 := by omega
    have hdrop : (c.processedMessageIds ++ [messageId]).drop
        ((c.processedMessageIds ++ [messageId]).length - 1000) =
        c.processedMessageIds.drop 1 ++ [messageId] := by
      rw [List.drop_append_eq_append_drop, h1, h2, List.drop_zero]
    simp only [addProcessedMessageId]
    rw [if_pos hgt, hdrop]

/-- Witness for C2 at a full (1000-entry) ledger. -/
theorem addProcessedMessageId_bounded_fifo_witness :
    addProcessedMessageId (some fullCreds) "m" =
      some { fullCreds with
             processedMessageIds := List.replicate 999 "x" ++ ["m"] } ∧
    (∀ c', ([] ++ ["m"] : List String).foldl addProcessedMessageId (some fullCreds) = some c' →
        c'.processedMessageIds.length ≤ 1000) := by
  have h := addProcessedMessageId_bounded_fifo (some fullCreds) [] "m"
  have hpm : fullCreds.processedMessageIds = List.replicate 1000 "x" := rfl
  have hlen : fullCreds.processedMessageIds.length = 1000 := by
    rw [hpm, List.length_replicate]
  constructor
  · have h2 := h.2 fullCreds hlen
    rw [hpm, List.drop_replicate] at h2
    norm_num at h2
    exact h2
  · exact h.1

/-- Helper: decoding the serialised registration recovers it exactly. -/
lemma decodeRegistration_encodeRegistration (r : ConnectorRegistration) :
    decodeRegistration (encodeRegistration r) = some r := by
  obtain ⟨cid, dn, dt, tok, uid, st, ra, lw⟩ := r
  cases uid <;> cases ra <;> cases lw <;> rfl

/-- C9: persisting a registration whose `connectorId`, `token` and
`deviceName` are non-empty and then reloading it yields the original value
(hence equality on the three required fields), from any prior file state. -/
theorem registration_roundtrip (file : Option Json) (r : ConnectorRegistration)
    (h1 : r.connectorId ≠ "") (h2 : r.token ≠ "") (h3 : r.deviceName ≠ "") :
    loadRegistration (saveRegistration file r) = some r := by
  simp only [saveRegistration, loadRegistration, decodeRegistration_encodeRegistration]
  simp [h1, h2, h3]

/-- Witness for C9 at a concrete registration. -/
theorem registration_roundtrip_witness :
    loadRegistration (saveRegistration none sampleRegistration) = some sampleRegistration :=
  registration_roundtrip none sampleRegistration (by decide) (by decide) (by decide)

/-- C10: a fetched message whose `from` field differs from the polled peer
id is never selected, and the emitted events and ledger insertions of
`processConversation` range exactly over the selected messages — so such a
message produces no `new-message` event and no processed-ID insertion. -/
theorem poller_skips_foreign_messages (store : CredStore) (peerId peerName : String)
    (msgs : List ChatMessage) (m : ChatMessage) (_hm : m ∈ msgs)
    (hfrom : m.from ≠ peerId) :
    m ∉ selectedMessages store peerId msgs ∧
    (processConversation store peerId peerName msgs).1 =
      (selectedMessages store peerId msgs).map (mkNewMessageEvent peerId peerName) ∧
    (processConversation store peerId peerName msgs).2 =
      (selectedMessages store peerId msgs).foldl
        (fun s m2 => addProcessedMessageId s m2.id) store := by
  refine ⟨?_, rfl, rfl⟩
  intro hmem
  rw [selectedMessages, List.mem_filter] at hmem
  have := hmem.2
  simp only [Bool.and_eq_true, beq_iff_eq] at this
  exact hfrom this.2

/-- Witness for C10: the foreign message `msgOther` is skipped. -/
theorem poller_skips_foreign_messages_witness :
    msgOther ∉ selectedMessages (some emptyCreds) "p" [msgA, msgOther] ∧
    (processConversation (some emptyCreds) "p" "Peer" [msgA, msgOther]).1 =
      (selectedMessages (some emptyCreds) "p" [msgA, msgOther]).map
        (mkNewMessageEvent "p" "Peer") ∧
    (processConversation (some emptyCreds) "p" "Peer" [msgA, msgOther]).2 =
      (selectedMessages (some emptyCreds) "p" [msgA, msgOther]).foldl
        (fun s m2 => addProcessedMessageId s m2.id) (some emptyCreds) :=
  poller_skips_foreign_messages (some emptyCreds) "p" "Peer" [msgA, msgOther]
    msgOther (by simp) (by decide)

/-- C1 counterexample: a batch that contains the same message (id `"a"`)
twice, against an empty ledger, emits TWO `new-message` events for that id
and inserts it into the ledger TWICE — the batch is filtered against the
ledger before any id is committed, so within-batch duplicates all pass. -/
theorem dedup_within_batch_counterexample :
    ((processConversation (some emptyCreds) "p" "Peer" [msgA, msgA]).1.countP
        (fun e => e.messageId == "a") = 2) ∧
    ((processConversation (some emptyCreds) "p" "Peer" [msgA, msgA]).2.elim 0
        (fun c => c.processedMessageIds.count "a") = 2) := by
  constructor <;> rfl

/-- C1 (amended): a message id that is already in the processed-ID ledger
when a batch is filtered is never re-emitted and never re-inserted by that
`processConversation` call; deduplication holds across batches (while the
id remains in the ledger) but not for duplicates inside a single fetched
batch. -/
theorem dedup_across_batches (store : CredStore) (peerId peerName : String)
    (msgs : List ChatMessage) (dupId : String)
    (hproc : isMessageProcessed store dupId = true) :
    ((processConversation store peerId peerName msgs).1.countP
        (fun e => e.messageId == dupId) = 0) ∧
    (∀ m ∈ selectedMessages store peerId msgs, m.id ≠ dupId) := by
  have hsel : ∀ m ∈ selectedMessages store peerId msgs, m.id ≠ dupId := by
    intro m hmem heq
    rw [selectedMessages, List.mem_filter] at hmem
    have h2 := hmem.2
    simp only [Bool.and_eq_true, Bool.not_eq_true'] at h2
    rw [heq, hproc] at h2
    exact absurd h2.1 (by decide)
  refine ⟨?_, hsel⟩
  show ((selectedMessages store peerId msgs).map
      (mkNewMessageEvent peerId peerName)).countP (fun e => e.messageId == dupId) = 0
  rw [List.countP_map, List.countP_eq_zero]
  intro m hmem
  simp only [Function.comp_apply, mkNewMessageEvent, beq_iff_eq]
  exact hsel m hmem

/-- Witness for C1 (amended): with `"a"` already in the ledger, redelivery
of `msgA` produces no event and no selection. -/
theorem dedup_across_batches_witness :
    ((processConversation (some { emptyCreds with processedMessageIds := ["a"] })
        "p" "Peer" [msgA]).1.countP (fun e => e.messageId == "a") = 0) ∧
    (∀ m ∈ selectedMessages (some { emptyCreds with processedMessageIds := ["a"] })
        "p" [msgA], m.id ≠ "a") :=
  dedup_across_batches (some { emptyCreds with processedMessageIds := ["a"] })
    "p" "Peer" [msgA] "a" (by rfl)

/-- C3 counterexample: on a status response with BOTH `registered` and
`expired` set, the poll tick takes the `registered` branch first — it
transitions to `connected`, persists the registration, starts the
heartbeat and command pollers, and emits no `token-expired`.  "Expired
wins" is false; registered wins. -/
theorem ambiguous_status_counterexample :
    ambiguousTickResult.status = "connected" ∧
    ambiguousTickResult.heartbeatTimer = true ∧
    ambiguousTickResult.commandPollTimer = true ∧
    ambiguousTickResult.registrationFile.isSome = true ∧
    countTokenExpired ambiguousTickResult.events = 0 ∧
    ambiguousTickResult.registration.isSome = true := by
  refine ⟨rfl, rfl, rfl, rfl, rfl, rfl⟩

/-- C3 (amended): the poll tick treats `registered` as authoritative — any
response with `registered = true` (even one that simultaneously reports
`expired = true`) transitions to `connected`, persists the registration
and starts both pollers, emitting no `token-expired`; the `expired` flag
only takes effect when `registered = false`. -/
theorem ambiguous_status_registered_wins (st : ManagerState) (tokString : String)
    (data : StatusResponse) (now : Nat)
    (hp : st.pollActive = true) (ha : st.attempts < 60) :
    (data.registered = true →
      (registrationPollTick st tokString (some data) now).status = "connected" ∧
      (registrationPollTick st tokString (some data) now).heartbeatTimer = true ∧
      (registrationPollTick st tokString (some data) now).commandPollTimer = true ∧
      (registrationPollTick st tokString (some data) now).registrationFile.isSome = true ∧
      countTokenExpired (registrationPollTick st tokString (some data) now).events =
        countTokenExpired st.events) ∧
    (data.registered = false → data.expired = true →
      (registrationPollTick st tokString (some data) now).events =
        st.events ++ [.tokenExpired st.currentToken] ∧
      (registrationPollTick st tokString (some data) now).currentToken = none ∧
      (registrationPollTick st tokString (some data) now).heartbeatTimer =
        st.heartbeatTimer) := by
  have hna : ¬ st.attempts ≥ 60 := Nat.not_le.mpr ha
  constructor
  · intro hreg
    simp only [registrationPollTick, hp, hna, hreg, Bool.not_true, Bool.false_eq_true,
      if_false, if_true, ite_false, ite_true]
    simp [countTokenExpired, List.countP_append, saveRegistration]
  · intro hreg hexp
    simp only [registrationPollTick, hp, hna, hreg, hexp, Bool.not_true, Bool.false_eq_true,
      if_false, if_true, ite_false, ite_true]
    simp

/-- Witness for C3 (amended) at the concrete ambiguous response. -/
theorem ambiguous_status_registered_wins_witness :
    (registrationPollTick (freshPairingState sampleToken) "tok"
        (some ambiguousResponse) 0).status = "connected" ∧
    (registrationPollTick (freshPairingState sampleToken) "tok"
        (some ambiguousResponse) 0).heartbeatTimer = true := by
  have h := (ambiguous_status_registered_wins (freshPairingState sampleToken) "tok"
      ambiguousResponse 0 rfl (by decide)).1 rfl
  exact ⟨h.1, h.2.1⟩

/-- Helper: `n` consecutive `recordError` calls leave exactly `n`
consecutive failures on the stats. -/
lemma afterFailures_consecutive (e : ConnectorError) (n : Nat) :
    (afterFailures e n).stats.consecutiveFailures = n := by
  induction n with
  | zero => rfl
  | succ n ih =>
    simp only [afterFailures, recordError, ih]
    split <;> rfl

/-- C5 counterexample: after 11 consecutive failures from a fresh handler
the `circuit-breaker-triggered` signal has been emitted TWICE (on the 10th
and on the 11th failure) — not "exactly once per threshold crossing". -/
theorem circuit_breaker_counterexample :
    (afterFailures sampleNetworkError 11).circuitBreakerEmits = 2 := by
  rfl

/-- C5 (amended): `recordError` emits the circuit-breaker signal on EVERY
failure for which the consecutive-failure count reaches at least 10 — after
`n` consecutive failures from a fresh handler the signal has fired
`n − 9` times (0 for `n < 10`) — and any `recordSuccess` resets the
consecutive-failure count to 0, re-arming the process. -/
theorem circuit_breaker_fires_each_failure (e : ConnectorError) (n : Nat) :
    ((afterFailures e n).circuitBreakerEmits = if 10 ≤ n then n - 9 else 0) ∧
    (∀ g now, (recordSuccess g now).stats.consecutiveFailures = 0) := by
  refine ⟨?_, fun g now => rfl⟩
  induction n with
  | zero => rfl
  | succ n ih =>
    have hc := afterFailures_consecutive e n
    simp only [afterFailures, recordError, hc]
    by_cases h10 : 10 ≤ n + 1
    · rw [if_pos (by omega : n + 1 ≥ 10)]
      simp only [ih]
      by_cases h10' : 10 ≤ n
      · rw [if_pos h10, if_pos h10']
        omega
      · rw [if_pos h10, if_neg h10']
        omega
    · rw [if_neg (by omega : ¬ n + 1 ≥ 10)]
      simp only [ih]
      rw [if_neg h10, if_neg (by omega : ¬ 10 ≤ n)]

/-- C8: when `disconnect` is called with `deleteRemote = true` on a state
holding a registration and the remote disconnect call fails
(`remoteOk = false`), the persisted registration file is left untouched
(available for a later retry), while the heartbeat, command-poll and
reconnect timers are all stopped, the websocket is closed, and the
filesystem watcher that was active at entry is closed (a fresh watcher may
be re-armed afterwards, per the `watchForRegistration` option). -/
theorem disconnect_remote_failure_keeps_file (st : ManagerState)
    (opts : DisconnectOptions) (r : ConnectorRegistration)
    (hreg : st.registration = some r) (hdel : opts.deleteRemote = some true) :
    (disconnect st opts false).registrationFile = st.registrationFile ∧
    (disconnect st opts false).heartbeatTimer = false ∧
    (disconnect st opts false).commandPollTimer = false ∧
    (disconnect st opts false).reconnectTimer = false ∧
    (disconnect st opts false).wsOpen = false ∧
    (disconnect st opts false).registration = none ∧
    (∀ w, st.watcher = some w → w ∈ (disconnect st opts false).closedWatchers) := by
  simp only [disconnect, hreg, hdel]
  cases hw : st.watcher <;>
    simp only [hw] <;>
    simp only [beq_self_eq_true, Bool.not_true, Bool.false_and, Bool.and_false,
      Bool.false_or, Bool.or_false, if_false, ite_false, Bool.false_eq_true] <;>
    split <;>
    simp_all

/-- Witness for C8 at a fully-armed connected state. -/
theorem disconnect_remote_failure_keeps_file_witness :
    (disconnect connectedState { deleteRemote := some true } false).registrationFile =
      connectedState.registrationFile ∧
    (disconnect connectedState { deleteRemote := some true } false).heartbeatTimer = false ∧
    3 ∈ (disconnect connectedState { deleteRemote := some true } false).closedWatchers := by
  have h := disconnect_remote_failure_keeps_file connectedState
    { deleteRemote := some true } sampleRegistration rfl rfl
  exact ⟨h.1, h.2.1, h.2.2.2.2.2.2 3 rfl⟩

/-- Helper: `n ≤ 60` failed poll ticks from a state with a live poll only
bump the attempt counter. -/
lemma failedTick_iterate (tokString : String) :
    ∀ (n : Nat) (st : ManagerState), st.pollActive = true → st.attempts + n ≤ 60 →
      (failedTick tokString)^[n] st = { st with attempts := st.attempts + n } := by
  intro n
  induction n with
  | zero =>
    intro st _ _
    simp
  | succ n ih =>
    intro st hp hle
    rw [Function.iterate_succ_apply]
    have hstep : failedTick tokString st = { st with attempts := st.attempts + 1 } := by
      simp only [failedTick, registrationPollTick, hp, Bool.not_true, Bool.false_eq_true,
        if_false]
      rw [if_neg (by omega : ¬ st.attempts ≥ 60)]
    rw [hstep, ih { st with attempts := st.attempts + 1 } hp (by simp; omega)]
    have harith : st.attempts + 1 + n = st.attempts + (n + 1) := by omega
    simp [harith]

/-- Helper: the 60 failed ticks leave the fresh pairing state unchanged
except for `attempts = 60`. -/
lemma sixty_failed_ticks (tok : QRCodeLoginToken) :
    (failedTick tok.token)^[60] (freshPairingState tok) =
      { currentToken := some tok, registration := none, registrationFile := none,
        status := "disconnected", heartbeatTimer := false, commandPollTimer := false,
        reconnectTimer := false, wsOpen := false, pollActive := true, attempts := 60,
        watcher := none, nextWatcherId := 0, closedWatchers := [], events := [] } := by
  rw [failedTick_iterate tok.token 60 (freshPairingState tok) rfl (by simp [freshPairingState])]
  rfl

/-- C4 counterexample: in the timeout scenario (token created at `T`,
`expires_in = 300`, default `qrCodeTimeoutMs = 300000`, no successful
status check), the `token-expired` event fires TWICE — once from the
expiration timer at `T+300s` and once more from the poll loop's 61st tick
at `T+305s` — not exactly once. -/
theorem pairing_expiry_counterexample :
    countTokenExpired (pairingTimeoutRun sampleToken).events = 2 := by
  have hrun : pairingTimeoutRun sampleToken =
      registrationPollTick
        (tokenExpirationTimerFire
          ((failedTick sampleToken.token)^[60] (freshPairingState sampleToken)))
        sampleToken.token none 0 := rfl
  rw [hrun, sixty_failed_ticks]
  rfl

/-- C4 (amended): in the timeout scenario the `token-expired` event fires
exactly twice — the expiration timer fires first, carrying the token and
clearing it (the only non-`none` → `none` transition of the in-memory
token), and the poll loop's 61st tick then emits a second `token-expired`
whose payload is already `null` — so the event is NOT emitted exactly
once, though the token itself is cleared exactly once. -/
theorem pairing_expiry_fires_twice (tok : QRCodeLoginToken) :
    ((failedTick tok.token)^[60] (freshPairingState tok)).currentToken = some tok ∧
    (tokenExpirationTimerFire
        ((failedTick tok.token)^[60] (freshPairingState tok))).currentToken = none ∧
    (pairingTimeoutRun tok).currentToken = none ∧
    (pairingTimeoutRun tok).events =
      [.tokenExpired (some tok), .tokenExpired none] ∧
    countTokenExpired (pairingTimeoutRun tok).events = 2 := by
  have hrun : pairingTimeoutRun tok =
      registrationPollTick
        (tokenExpirationTimerFire
          ((failedTick tok.token)^[60] (freshPairingState tok)))
        tok.token none 0 := rfl
  rw [hrun, sixty_failed_ticks]
  exact ⟨rfl, rfl, rfl, rfl, rfl⟩

/-- Helper: an if-then-else of two members of a list is a member. -/
lemma ite_mem_of {α : Type} {c : Prop} [Decidable c] {a b : α} {l : List α}
    (ha : a ∈ l) (hb : b ∈ l) : (if c then a else b) ∈ l := by
  split <;> assumption

/-- Helper: the classifier only ever returns one of the twelve
`ERROR_CODES` entries. -/
lemma classifyError_mem (m : String) :
    classifyError m ∈ [NETWORK_DNS, NETWORK_OFFLINE, NETWORK_TIMEOUT, SERVER_UNAVAILABLE,
      SERVER_INTERNAL, SERVER_RATE_LIMIT, AUTH_UNAUTHORIZED, AUTH_INVALID_TOKEN,
      AUTH_EXPIRED, VALIDATION_FAILED, INVALID_RESPONSE, UNKNOWN_ERROR] := by
  simp only [classifyError]
  repeat' apply ite_mem_of
  all_goals decide

/-- Helper: a message classified into the `network` category yields a
retryable `ConnectorError` (both network codes have severity `high`, never
`critical`). -/
lemma mkConnectorError_network_retryable (m : String) (now : Nat)
    (h : (classifyError m).category = ErrorCategory.network) :
    (mkConnectorError m now).retryable = true := by
  show isRetryable (classifyError m).category (classifyError m).severity = true
  have hm := classifyError_mem m
  simp only [List.mem_cons, List.not_mem_nil, or_false] at hm
  rcases hm with hc|hc|hc|hc|hc|hc|hc|hc|hc|hc|hc|hc <;>
    rw [hc] at h ⊢ <;>
    first
      | rfl
      | exact absurd h (by decide)

/-- Helper: a message classified into the `authentication` category yields
a non-retryable `ConnectorError`. -/
lemma mkConnectorError_auth_not_retryable (m : String) (now : Nat)
    (h : (classifyError m).category = ErrorCategory.authentication) :
    (mkConnectorError m now).retryable = false := by
  show isRetryable (classifyError m).category (classifyError m).severity = false
  rw [isRetryable, h]
  simp

/-- Helper: `round` is monotone on the rationals. -/
lemma round_rat_mono {x y : ℚ} (h : x ≤ y) : round x ≤ round y := by
  rw [round_eq, round_eq]
  exact Int.floor_le_floor (by linarith)

/-- Helper: bounds for the jittered backoff value around a positive base
delay `m`, for a jitter draw in `[0, 1]`. -/
lemma round_jitter_bounds (m r : ℚ) (hm : 0 < m) (h0 : 0 ≤ r) (h1 : r ≤ 1) :
    round ((7 / 10) * m) ≤ round (max 0 (m + m * (3 / 10) * (r * 2 - 1))) ∧
    round (max 0 (m + m * (3 / 10) * (r * 2 - 1))) ≤ round ((13 / 10) * m) := by
  have hlow : (7 / 10) * m ≤ m + m * (3 / 10) * (r * 2 - 1) := by nlinarith
  have hhigh : m + m * (3 / 10) * (r * 2 - 1) ≤ (13 / 10) * m := by nlinarith
  have hmax : max 0 (m + m * (3 / 10) * (r * 2 - 1)) = m + m * (3 / 10) * (r * 2 - 1) :=
    max_eq_right (by nlinarith)
  rw [hmax]
  exact ⟨round_rat_mono hlow, round_rat_mono hhigh⟩

/-- Helper: with the default strategy the computed delay at attempt
`a ≤ 5` lies in `[700·2^a, 1300·2^a]` ms, for any jitter draw in
`[0, 1]`. -/
lemma calculateRetryDelay_default_bounds (a : Nat) (ha : a ≤ 5) (r : ℚ)
    (h0 : 0 ≤ r) (h1 : r ≤ 1) :
    (700 * 2 ^ a : ℤ) ≤ calculateRetryDelay defaultRecoveryStrategy a r ∧
    calculateRetryDelay defaultRecoveryStrategy a r ≤ (1300 * 2 ^ a : ℤ) := by
  have hpow_pos : (0 : ℚ) < 2 ^ a := by positivity
  have hpow_le : (2 : ℚ) ^ a ≤ 2 ^ 5 := pow_le_pow_right₀ (by norm_num) ha
  have hmin : min (1000 * (2 : ℚ) ^ a) 60000 = 1000 * 2 ^ a := by
    apply min_eq_left
    nlinarith
  have hcalc : calculateRetryDelay defaultRecoveryStrategy a r =
      round (max 0 (min (1000 * (2 : ℚ) ^ a) 60000 +
        min (1000 * (2 : ℚ) ^ a) 60000 * (3 / 10) * (r * 2 - 1))) := rfl
  rw [hcalc, hmin]
  have hb := round_jitter_bounds (1000 * (2 : ℚ) ^ a) r (by positivity) h0 h1
  have hlow : ((700 * 2 ^ a : ℤ) : ℚ) = (7 / 10) * (1000 * (2 : ℚ) ^ a) := by
    push_cast
    ring
  have hhigh : ((1300 * 2 ^ a : ℤ) : ℚ) = (13 / 10) * (1000 * (2 : ℚ) ^ a) := by
    push_cast
    ring
  constructor
  · have h := hb.1
    rw [← hlow, round_intCast] at h
    exact h
  · have h := hb.2
    rw [← hhigh, round_intCast] at h
    exact h

/-- Helper: with the default strategy, successive jittered delays are
non-decreasing while the exponent stays below the cap region. -/
lemma calculateRetryDelay_default_succ_le (a : Nat) (ha : a + 1 ≤ 5) (r1 r2 : ℚ)
    (h10 : 0 ≤ r1) (h11 : r1 ≤ 1) (h20 : 0 ≤ r2) (h21 : r2 ≤ 1) :
    calculateRetryDelay defaultRecoveryStrategy a r1 ≤
      calculateRetryDelay defaultRecoveryStrategy (a + 1) r2 := by
  have hb1 := (calculateRetryDelay_default_bounds a (by omega) r1 h10 h11).2
  have hb2 := (calculateRetryDelay_default_bounds (a + 1) ha r2 h20 h21).1
  have hstep : (1300 * 2 ^ a : ℤ) ≤ 700 * 2 ^ (a + 1) := by
    have hpow : (0 : ℤ) < 2 ^ a := by positivity
    have : (2 : ℤ) ^ (a + 1) = 2 * 2 ^ a := by ring
    nlinarith
  exact le_trans hb1 (le_trans hstep hb2)

/-- Helper: with the default strategy, a jittered delay at attempt `a ≤ 3`
never exceeds the 60000 ms cap. -/
lemma calculateRetryDelay_default_le_cap (a : Nat) (ha : a ≤ 3) (r : ℚ)
    (h0 : 0 ≤ r) (h1 : r ≤ 1) :
    calculateRetryDelay defaultRecoveryStrategy a r ≤ 60000 := by
  have hb := (calculateRetryDelay_default_bounds a (by omega) r h0 h1).2
  have hpow : (2 : ℤ) ^ a ≤ 2 ^ 3 := pow_le_pow_right₀ (by norm_num) ha
  nlinarith

/-- Helper: one failing loop iteration with a retryable error and attempts
remaining sleeps a backoff delay and continues. -/
lemma withRetryAux_fail_step {α : Type} (s : RecoveryStrategy)
    (fn : Nat → Except String α) (rand : Nat → ℚ) (now : Nat → Nat)
    (attempt fuel : Nat) (g : GovernorState) (ds : List ℤ)
    (le : Option ConnectorError) (msg : String)
    (hfn : fn attempt = .error msg)
    (hr : (mkConnectorError msg (now attempt)).retryable = true)
    (hlt : attempt < s.maxRetries - 1) :
    withRetryAux s fn rand now attempt (fuel + 1) g ds le =
      withRetryAux s fn rand now (attempt + 1) fuel
        (recordError g (mkConnectorError msg (now attempt)))
        (ds ++ [calculateRetryDelay s attempt (rand attempt)])
        (some (mkConnectorError msg (now attempt))) := by
  simp only [withRetryAux, hfn, createError]
  rw [if_neg]
  simp only [hr, Bool.not_true, Bool.false_or, decide_eq_true_eq]
  omega

/-- Helper: a failing iteration with no attempts remaining throws the
classified error. -/
lemma withRetryAux_fail_last {α : Type} (s : RecoveryStrategy)
    (fn : Nat → Except String α) (rand : Nat → ℚ) (now : Nat → Nat)
    (attempt fuel : Nat) (g : GovernorState) (ds : List ℤ)
    (le : Option ConnectorError) (msg : String)
    (hfn : fn attempt = .error msg)
    (hge : attempt ≥ s.maxRetries - 1) :
    withRetryAux s fn rand now attempt (fuel + 1) g ds le =
      { result := .error (some (mkConnectorError msg (now attempt)))
        invocations := attempt + 1
        delays := ds
        governor := recordError g (mkConnectorError msg (now attempt)) } := by
  simp only [withRetryAux, hfn, createError]
  rw [if_pos]
  simp [hge]

/-- Helper: a failing iteration whose classified error is not retryable
throws it immediately. -/
lemma withRetryAux_fail_noretry {α : Type} (s : RecoveryStrategy)
    (fn : Nat → Except String α) (rand : Nat → ℚ) (now : Nat → Nat)
    (attempt fuel : Nat) (g : GovernorState) (ds : List ℤ)
    (le : Option ConnectorError) (msg : String)
    (hfn : fn attempt = .error msg)
    (hr : (mkConnectorError msg (now attempt)).retryable = false) :
    withRetryAux s fn rand now attempt (fuel + 1) g ds le =
      { result := .error (some (mkConnectorError msg (now attempt)))
        invocations := attempt + 1
        delays := ds
        governor := recordError g (mkConnectorError msg (now attempt)) } := by
  simp only [withRetryAux, hfn, createError]
  rw [if_pos]
  simp [hr]

/-- C7: when the first invocation fails with an error classified as
`authentication`, `withRetry` performs no retry — the wrapped function is
invoked exactly once, no backoff delay is slept, and the classified error
is raised. -/
theorem withRetry_auth_no_retry {α : Type} (fn : Nat → Except String α)
    (rand : Nat → ℚ) (now : Nat → Nat) (g : GovernorState) (msg : String)
    (hfn : fn 0 = .error msg)
    (hauth : (classifyError msg).category = ErrorCategory.authentication) :
    (withRetry defaultRecoveryStrategy fn rand now g).invocations = 1 ∧
    (withRetry defaultRecoveryStrategy fn rand now g).result =
      .error (some (mkConnectorError msg (now 0))) ∧
    (withRetry defaultRecoveryStrategy fn rand now g).delays = [] := by
  have hr := mkConnectorError_auth_not_retryable msg (now 0) hauth
  have hrun : withRetry defaultRecoveryStrategy fn rand now g =
      { result := .error (some (mkConnectorError msg (now 0)))
        invocations := 1
        delays := []
        governor := recordError g (mkConnectorError msg (now 0)) } := by
    show withRetryAux defaultRecoveryStrategy fn rand now 0 (4 + 1) g [] none = _
    exact withRetryAux_fail_noretry defaultRecoveryStrategy fn rand now 0 4 g [] none
      msg hfn hr
  rw [hrun]
  exact ⟨rfl, rfl, rfl⟩

/-- Witness for C7: a function always rejecting with "401 unauthorized". -/
theorem withRetry_auth_no_retry_witness :
    (withRetry defaultRecoveryStrategy
        (fun _ => (Except.error "401 unauthorized" : Except String Unit))
        (fun _ => 1 / 2) (fun _ => 0) initialGovernorState).invocations = 1 ∧
    (withRetry defaultRecoveryStrategy
        (fun _ => (Except.error "401 unauthorized" : Except String Unit))
        (fun _ => 1 / 2) (fun _ => 0) initialGovernorState).result =
      .error (some (mkConnectorError "401 unauthorized" 0)) ∧
    (withRetry defaultRecoveryStrategy
        (fun _ => (Except.error "401 unauthorized" : Except String Unit))
        (fun _ => 1 / 2) (fun _ => 0) initialGovernorState).delays = [] :=
  withRetry_auth_no_retry (fun _ => (Except.error "401 unauthorized" : Except String Unit))
    (fun _ => 1 / 2) (fun _ => 0) initialGovernorState "401 unauthorized" rfl (by decide)

/-- C6: on a function that fails on every invocation with an error
classified as `network`, `withRetry` with the default strategy makes
exactly `maxRetries = 5` attempts (the initial call plus four retries),
sleeps the four jittered backoff delays of attempts 0–3 in between, and
then raises the classified error of the final attempt; for any jitter
draws in `[0, 1]` the slept delays are non-decreasing and all at most
`maxDelayMs = 60000`. -/
theorem withRetry_network_exhausts {α : Type} (msgs : Nat → String)
    (rand : Nat → ℚ) (now : Nat → Nat) (g : GovernorState)
    (hnet : ∀ i, (classifyError (msgs i)).category = ErrorCategory.network)
    (hrand : ∀ i, 0 ≤ rand i ∧ rand i ≤ 1) :
    (withRetry defaultRecoveryStrategy
        (fun i => (Except.error (msgs i) : Except String α)) rand now g).invocations = 5 ∧
    (withRetry defaultRecoveryStrategy
        (fun i => (Except.error (msgs i) : Except String α)) rand now g).result =
      .error (some (mkConnectorError (msgs 4) (now 4))) ∧
    (withRetry defaultRecoveryStrategy
        (fun i => (Except.error (msgs i) : Except String α)) rand now g).delays =
      [calculateRetryDelay defaultRecoveryStrategy 0 (rand 0),
       calculateRetryDelay defaultRecoveryStrategy 1 (rand 1),
       calculateRetryDelay defaultRecoveryStrategy 2 (rand 2),
       calculateRetryDelay defaultRecoveryStrategy 3 (rand 3)] ∧
    List.Chain' (· ≤ ·)
      (withRetry defaultRecoveryStrategy
        (fun i => (Except.error (msgs i) : Except String α)) rand now g).delays ∧
    (∀ d ∈ (withRetry defaultRecoveryStrategy
        (fun i => (Except.error (msgs i) : Except String α)) rand now g).delays,
      d ≤ 60000) := by
  have hr : ∀ i, (mkConnectorError (msgs i) (now i)).retryable = true := fun i =>
    mkConnectorError_network_retryable _ _ (hnet i)
  have hrun : withRetry defaultRecoveryStrategy
      (fun i => (Except.error (msgs i) : Except String α)) rand now g =
      { result := .error (some (mkConnectorError (msgs 4) (now 4)))
        invocations := 4 + 1
        delays :=
          [calculateRetryDelay defaultRecoveryStrategy 0 (rand 0),
           calculateRetryDelay defaultRecoveryStrategy 1 (rand 1),
           calculateRetryDelay defaultRecoveryStrategy 2 (rand 2),
           calculateRetryDelay defaultRecoveryStrategy 3 (rand 3)]
        governor :=
          recordError
            (recordError
              (recordError
                (recordError
                  (recordError g (mkConnectorError (msgs 0) (now 0)))
                  (mkConnectorError (msgs 1) (now 1)))
                (mkConnectorError (msgs 2) (now 2)))
              (mkConnectorError (msgs 3) (now 3)))
            (mkConnectorError (msgs 4) (now 4)) } := by
    calc withRetry defaultRecoveryStrategy
            (fun i => (Except.error (msgs i) : Except String α)) rand now g
        = withRetryAux defaultRecoveryStrategy
            (fun i => (Except.error (msgs i) : Except String α)) rand now
            0 (4 + 1) g [] none := rfl
      _ = withRetryAux defaultRecoveryStrategy
            (fun i => (Except.error (msgs i) : Except String α)) rand now
            1 (3 + 1)
            (recordError g (mkConnectorError (msgs 0) (now 0)))
            [calculateRetryDelay defaultRecoveryStrategy 0 (rand 0)]
            (some (mkConnectorError (msgs 0) (now 0))) := by
          exact withRetryAux_fail_step defaultRecoveryStrategy _ rand now 0 4 g [] none
            (msgs 0) rfl (hr 0) (by decide)
      _ = withRetryAux defaultRecoveryStrategy
            (fun i => (Except.error (msgs i) : Except String α)) rand now
            2 (2 + 1)
            (recordError (recordError g (mkConnectorError (msgs 0) (now 0)))
              (mkConnectorError (msgs 1) (now 1)))
            [calculateRetryDelay defaultRecoveryStrategy 0 (rand 0),
             calculateRetryDelay defaultRecoveryStrategy 1 (rand 1)]
            (some (mkConnectorError (msgs 1) (now 1))) := by
          exact withRetryAux_fail_step defaultRecoveryStrategy _ rand now 1 3 _ _ _
            (msgs 1) rfl (hr 1) (by decide)
      _ = withRetryAux defaultRecoveryStrategy
            (fun i => (Except.error (msgs i) : Except String α)) rand now
            3 (1 + 1)
            (recordError
              (recordError (recordError g (mkConnectorError (msgs 0) (now 0)))
                (mkConnectorError (msgs 1) (now 1)))
              (mkConnectorError (msgs 2) (now 2)))
            [calculateRetryDelay defaultRecoveryStrategy 0 (rand 0),
             calculateRetryDelay defaultRecoveryStrategy 1 (rand 1),
             calculateRetryDelay defaultRecoveryStrategy 2 (rand 2)]
            (some (mkConnectorError (msgs 2) (now 2))) := by
          exact withRetryAux_fail_step defaultRecoveryStrategy _ rand now 2 2 _ _ _
            (msgs 2) rfl (hr 2) (by decide)
      _ = withRetryAux defaultRecoveryStrategy
            (fun i => (Except.error (msgs i) : Except String α)) rand now
            4 (0 + 1)
            (recordError
              (recordError
                (recordError (recordError g (mkConnectorError (msgs 0) (now 0)))
                  (mkConnectorError (msgs 1) (now 1)))
                (mkConnectorError (msgs 2) (now 2)))
              (mkConnectorError (msgs 3) (now 3)))
            [calculateRetryDelay defaultRecoveryStrategy 0 (rand 0),
             calculateRetryDelay defaultRecoveryStrategy 1 (rand 1),
             calculateRetryDelay defaultRecoveryStrategy 2 (rand 2),
             calculateRetryDelay defaultRecoveryStrategy 3 (rand 3)]
            (some (mkConnectorError (msgs 3) (now 3))) := by
          exact withRetryAux_fail_step defaultRecoveryStrategy _ rand now 3 1 _ _ _
            (msgs 3) rfl (hr 3) (by decide)
      _ = { result := .error (some (mkConnectorError (msgs 4) (now 4)))
            invocations := 4 + 1
            delays :=
              [calculateRetryDelay defaultRecoveryStrategy 0 (rand 0),
               calculateRetryDelay defaultRecoveryStrategy 1 (rand 1),
               calculateRetryDelay defaultRecoveryStrategy 2 (rand 2),
               calculateRetryDelay defaultRecoveryStrategy 3 (rand 3)]
            governor :=
              recordError
                (recordError
                  (recordError
                    (recordError
                      (recordError g (mkConnectorError (msgs 0) (now 0)))
                      (mkConnectorError (msgs 1) (now 1)))
                    (mkConnectorError (msgs 2) (now 2)))
                  (mkConnectorError (msgs 3) (now 3)))
                (mkConnectorError (msgs 4) (now 4)) } := by
          exact withRetryAux_fail_last defaultRecoveryStrategy _ rand now 4 0 _ _ _
            (msgs 4) rfl (by decide)
  rw [hrun]
  refine ⟨rfl, rfl, rfl, ?_, ?_⟩
  · refine List.chain'_cons.mpr ⟨?_, List.chain'_cons.mpr ⟨?_, List.chain'_cons.mpr
      ⟨?_, List.chain'_singleton _⟩⟩⟩
    · exact calculateRetryDelay_default_succ_le 0 (by omega) (rand 0) (rand 1)
        (hrand 0).1 (hrand 0).2 (hrand 1).1 (hrand 1).2
    · exact calculateRetryDelay_default_succ_le 1 (by omega) (rand 1) (rand 2)
        (hrand 1).1 (hrand 1).2 (hrand 2).1 (hrand 2).2
    · exact calculateRetryDelay_default_succ_le 2 (by omega) (rand 2) (rand 3)
        (hrand 2).1 (hrand 2).2 (hrand 3).1 (hrand 3).2
  · intro d hd
    simp only [List.mem_cons, List.not_mem_nil, or_false] at hd
    rcases hd with h|h|h|h <;>
      rw [h] <;>
      [exact calculateRetryDelay_default_le_cap 0 (by omega) (rand 0) (hrand 0).1 (hrand 0).2;
       exact calculateRetryDelay_default_le_cap 1 (by omega) (rand 1) (hrand 1).1 (hrand 1).2;
       exact calculateRetryDelay_default_le_cap 2 (by omega) (rand 2) (hrand 2).1 (hrand 2).2;
       exact calculateRetryDelay_default_le_cap 3 (by omega) (rand 3) (hrand 3).1 (hrand 3).2]

/-- Witness for C6: a function always rejecting with "econnrefused",
jitter draw 1/2 on every attempt. -/
theorem withRetry_network_exhausts_witness :
    (withRetry defaultRecoveryStrategy
        (fun _ => (Except.error "econnrefused" : Except String Unit))
        (fun _ => 1 / 2) (fun _ => 0) initialGovernorState).invocations = 5 ∧
    (withRetry defaultRecoveryStrategy
        (fun _ => (Except.error "econnrefused" : Except String Unit))
        (fun _ => 1 / 2) (fun _ => 0) initialGovernorState).result =
      .error (some (mkConnectorError "econnrefused" 0)) ∧
    (withRetry defaultRecoveryStrategy
        (fun _ => (Except.error "econnrefused" : Except String Unit))
        (fun _ => 1 / 2) (fun _ => 0) initialGovernorState).delays =
      [calculateRetryDelay defaultRecoveryStrategy 0 (1 / 2),
       calculateRetryDelay defaultRecoveryStrategy 1 (1 / 2),
       calculateRetryDelay defaultRecoveryStrategy 2 (1 / 2),
       calculateRetryDelay defaultRecoveryStrategy 3 (1 / 2)] ∧
    List.Chain' (· ≤ ·)
      (withRetry defaultRecoveryStrategy
        (fun _ => (Except.error "econnrefused" : Except String Unit))
        (fun _ => 1 / 2) (fun _ => 0) initialGovernorState).delays ∧
    (∀ d ∈ (withRetry defaultRecoveryStrategy
        (fun _ => (Except.error "econnrefused" : Except String Unit))
        (fun _ => 1 / 2) (fun _ => 0) initialGovernorState).delays,
      d ≤ 60000) := by
  have h : (classifyError "econnrefused").category = ErrorCategory.network := by decide
  exact withRetry_network_exhausts (fun _ => "econnrefused") (fun _ => 1 / 2) (fun _ => 0)
    initialGovernorState (fun _ => h) (fun _ => by norm_num)

end PinaiConnector
